import Mathlib

/-!
Formal model of the pg-mcp OpenAI clients: the schema translator, the
session lifecycle operations, and the chat orchestration loop of
`openai_pg_mcp_client.py` and `simplified_openai_client.py`, embedded as
pure Lean functions.  Remote collaborators (the completion service and the
MCP transport) are passed in as oracle functions returning `Except`, and
every remote invocation an operation performs is returned in an explicit
call log, so that claims about which remote calls are made can be stated
and checked.  Exceptions raised by the Python code are modelled as
`Except.error` results.
-/

/-- Python truthiness of an optional string: `None` and `""` are falsy. -/
def truthy : Option String → Bool
  | none => false
  | some s => s ≠ ""

/-- Models Python `x or ""` on an optional string (equals `getD ""`). -/
def orEmpty : Option String → String
  | none => ""
  | some s => s

/-- An MCP tool parameter (`mcp.shared.schema.ToolParam`) as consumed by the
translator: `type` and `items` are optional raw strings (absent attributes
are `none`), `required` is a flag. -/
structure ToolParam where
  name : String
  type : Option String
  description : Option String
  required : Bool
  items : Option String
  deriving DecidableEq, Repr

/-- The per-parameter JSON-schema fragment produced by
`_convert_param_schema`: an optional copied description, a `type` string,
and (for arrays) an optional `items.type` string. -/
structure ParamSchema where
  description : Option String
  type : String
  items : Option String
  deriving DecidableEq, Repr

/-- `OpenAIPgMcpClient._convert_param_schema` (openai_pg_mcp_client.py,
lines 103-129): description copied when truthy; the five known types map
to themselves, `array` additionally copies a truthy `items` type; any
other or missing type falls back to `"string"`. -/
def convert_param_schema (param : ToolParam) : ParamSchema :=
  let desc : Option String := if truthy param.description then param.description else none
  if param.type = some "string" then ⟨desc, "string", none⟩
  else if param.type = some "number" then ⟨desc, "number", none⟩
  else if param.type = some "integer" then ⟨desc, "integer", none⟩
  else if param.type = some "boolean" then ⟨desc, "boolean", none⟩
  else if param.type = some "array" then
    ⟨desc, "array", if truthy param.items then param.items else none⟩
  else ⟨desc, "string", none⟩

/-- An MCP tool definition (`mcp.shared.schema.ToolDefinition`) as consumed
by the translator: name, optional description, optional parameter list. -/
structure ToolDefinition where
  name : String
  description : Option String
  params : Option (List ToolParam)
  deriving DecidableEq, Repr

/-- The OpenAI function-calling schema produced by
`_convert_tool_to_openai_format`: the `properties` insertion-ordered dict
is modelled as an association list, `required` as the appended list. -/
structure FunctionSchema where
  name : String
  description : String
  properties : List (String × ParamSchema)
  required : List String
  deriving DecidableEq, Repr

/-- Python dict assignment `d[k] = v` on an insertion-ordered dict modelled
as an association list: an existing key keeps its position and gets the new
value, a new key is appended. -/
def dictInsert {α : Type} (d : List (String × α)) (k : String) (v : α) :
    List (String × α) :=
  if d.any (fun p => p.1 == k) then
    d.map (fun p => if p.1 == k then (k, v) else p)
  else d ++ [(k, v)]

/-- One iteration of the parameter loop in `_convert_tool_to_openai_format`
(lines 87-92): store the converted schema under the parameter's name and
append the name to `required` when the flag is set. -/
def convertFold (acc : List (String × ParamSchema) × List String)
    (param : ToolParam) : List (String × ParamSchema) × List String :=
  (dictInsert acc.1 param.name (convert_param_schema param),
   if param.required then acc.2 ++ [param.name] else acc.2)

/-- `OpenAIPgMcpClient._convert_tool_to_openai_format`
(openai_pg_mcp_client.py, lines 78-101).  The `if tool.params:` guard is
observationally the same as folding over the empty list when `params` is
`None` or `[]`. -/
def convert_tool_to_openai_format (tool : ToolDefinition) : FunctionSchema :=
  let st := (tool.params.getD []).foldl convertFold ([], [])
  { name := tool.name
    description :=
      if truthy tool.description then orEmpty tool.description
      else "Tool for " ++ tool.name
    properties := st.1
    required := st.2 }

/-- `OpenAIPgMcpClient._load_tools` (openai_pg_mcp_client.py, lines 66-76):
`server_info.tools or []` then one dict store per tool; the function has no
failure path, whatever the input. -/
def load_tools (server_tools : Option (List ToolDefinition)) :
    List (String × FunctionSchema) :=
  (server_tools.getD []).foldl
    (fun acc tool => dictInsert acc tool.name (convert_tool_to_openai_format tool)) []

/-- The five parameter types recognised by `_convert_param_schema`. -/
def knownParamTypes : List (Option String) :=
  [some "string", some "number", some "integer", some "boolean", some "array"]

lemma dictInsert_of_not_mem {α : Type} (d : List (String × α)) (k : String)
    (v : α) (h : ∀ p ∈ d, p.1 ≠ k) : dictInsert d k v = d ++ [(k, v)] := by
  unfold dictInsert
  have hany : d.any (fun p => p.1 == k) = false := by
    simp only [List.any_eq_false]
    intro x hx
    simp [h x hx]
  simp [hany]

lemma convertFold_append (ps : List ToolParam)
    (props : List (String × ParamSchema)) (req : List String)
    (hdisj : ∀ p ∈ ps, ∀ q ∈ props, q.1 ≠ p.name)
    (hnd : (ps.map ToolParam.name).Nodup) :
    ps.foldl convertFold (props, req) =
      (props ++ ps.map (fun p => (p.name, convert_param_schema p)),
       req ++ (ps.filter ToolParam.required).map ToolParam.name) := by
  induction ps generalizing props req with
  | nil => simp
  | cons p rest ih =>
    have hstep : convertFold (props, req) p =
        (props ++ [(p.name, convert_param_schema p)],
         if p.required then req ++ [p.name] else req) := by
      unfold convertFold
      rw [dictInsert_of_not_mem]
      intro q hq
      exact hdisj p (List.mem_cons_self _ _) q hq
    rw [List.foldl_cons, hstep]
    have hnd' : (rest.map ToolParam.name).Nodup := (List.nodup_cons.mp hnd).2
    have hpnot : p.name ∉ rest.map ToolParam.name := (List.nodup_cons.mp hnd).1
    have hdisj' : ∀ r ∈ rest, ∀ q ∈ props ++ [(p.name, convert_param_schema p)],
        q.1 ≠ r.name := by
      intro r hr q hq
      rcases List.mem_append.mp hq with hq | hq
      · exact hdisj r (List.mem_cons_of_mem _ hr) q hq
      · have : q = (p.name, convert_param_schema p) := by simpa using hq
        subst this
        intro heq
        have hpr : p.name = r.name := heq
        exact hpnot (by rw [hpr]; exact List.mem_map_of_mem ToolParam.name hr)
    rw [ih _ _ hdisj' hnd']
    cases hreq : p.required with
    | true => simp [List.filter_cons, hreq, List.append_assoc]
    | false => simp [List.filter_cons, hreq, List.append_assoc]

/-- C5: for a tool whose parameter names are distinct (a well-formed
definition, since `parameters` denotes a mapping keyed by name), the
translated schema's `properties` keys are exactly the parameter names in
encounter order (hence exactly N keys for N parameters), and `required`
lists exactly the parameters flagged required, in encounter order. -/
theorem c5_translate_schema (tool : ToolDefinition) (ps : List ToolParam)
    (hps : tool.params = some ps)
    (hnd : (ps.map ToolParam.name).Nodup) :
    (convert_tool_to_openai_format tool).properties.map Prod.fst =
      ps.map ToolParam.name ∧
    (convert_tool_to_openai_format tool).properties.length = ps.length ∧
    (convert_tool_to_openai_format tool).required =
      (ps.filter ToolParam.required).map ToolParam.name := by
  have hfold := convertFold_append ps [] [] (by intro p _ q hq; cases hq) hnd
  unfold convert_tool_to_openai_format
  rw [hps]
  simp only [Option.getD_some, hfold]
  refine ⟨?_, ?_, rfl⟩
  · simp [List.map_map]
  · simp

/-- Witness for C5 on the spec's round-trip example tool
`pg_query(query: string, required)`. -/
theorem c5_translate_schema_witness :
    (convert_tool_to_openai_format
        ⟨"pg_query", some "Execute a SQL query", some [⟨"query", some "string", none, true, none⟩]⟩).properties.map Prod.fst
      = [⟨"query", some "string", none, true, none⟩].map ToolParam.name ∧
    (convert_tool_to_openai_format
        ⟨"pg_query", some "Execute a SQL query", some [⟨"query", some "string", none, true, none⟩]⟩).properties.length
      = [(⟨"query", some "string", none, true, none⟩ : ToolParam)].length ∧
    (convert_tool_to_openai_format
        ⟨"pg_query", some "Execute a SQL query", some [⟨"query", some "string", none, true, none⟩]⟩).required
      = ([⟨"query", some "string", none, true, none⟩].filter ToolParam.required).map ToolParam.name :=
  c5_translate_schema
    ⟨"pg_query", some "Execute a SQL query", some [⟨"query", some "string", none, true, none⟩]⟩
    [⟨"query", some "string", none, true, none⟩] rfl (by decide)

/-- C6: a parameter type outside the five known ones translates to the
explicit `"string"` fallback; each known type translates to itself; and an
array parameter with a present (non-empty) item type gets that item type
copied into the schema's `items`. -/
theorem c6_param_type_mapping :
    (∀ p : ToolParam, p.type ∉ knownParamTypes →
       (convert_param_schema p).type = "string") ∧
    (∀ p : ToolParam, ∀ t, p.type = some t → some t ∈ knownParamTypes →
       (convert_param_schema p).type = t) ∧
    (∀ p : ToolParam, ∀ it, p.type = some "array" → p.items = some it →
       it ≠ "" → (convert_param_schema p).items = some it) := by
  refine ⟨?_, ?_, ?_⟩
  · intro p hp
    simp only [knownParamTypes, List.mem_cons, List.not_mem_nil, or_false] at hp
    push_neg at hp
    obtain ⟨h1, h2, h3, h4, h5⟩ := hp
    simp [convert_param_schema, h1, h2, h3, h4, h5]
  · intro p t hpt hmem
    simp only [knownParamTypes, List.mem_cons, List.not_mem_nil, or_false,
      Option.some_inj] at hmem
    rcases hmem with h | h | h | h | h <;> subst h <;>
      simp [convert_param_schema, hpt]
  · intro p it hpt hit hne
    simp [convert_param_schema, hpt, hit, truthy, hne]

/-- Witness for C6: the unknown type `"object"` falls back to string, the
known type `"integer"` is kept, and an array of strings copies its item
type. -/
theorem c6_param_type_mapping_witness :
    (convert_param_schema ⟨"a", some "object", none, false, none⟩).type = "string" ∧
    (convert_param_schema ⟨"b", some "integer", none, false, none⟩).type = "integer" ∧
    (convert_param_schema ⟨"c", some "array", none, false, some "string"⟩).items = some "string" :=
  ⟨c6_param_type_mapping.1 ⟨"a", some "object", none, false, none⟩ (by decide),
   c6_param_type_mapping.2.1 ⟨"b", some "integer", none, false, none⟩ "integer" rfl (by decide),
   c6_param_type_mapping.2.2 ⟨"c", some "array", none, false, some "string"⟩ "string" rfl rfl (by decide)⟩

lemma dictInsert_ne_nil {α : Type} (d : List (String × α)) (k : String) (v : α) :
    dictInsert d k v ≠ [] := by
  unfold dictInsert
  cases d with
  | nil => simp
  | cons p rest =>
    by_cases h : ((p :: rest).any (fun q => q.1 == k)) = true
    · simp [h]
    · simp [h]

lemma foldl_dictInsert_ne_nil (ts : List ToolDefinition)
    (acc : List (String × FunctionSchema)) (hacc : acc ≠ []) :
    ts.foldl
      (fun acc tool => dictInsert acc tool.name (convert_tool_to_openai_format tool))
      acc ≠ [] := by
  induction ts generalizing acc with
  | nil => simpa using hacc
  | cons t rest ih =>
    rw [List.foldl_cons]
    exact ih _ (dictInsert_ne_nil _ _ _)

/-- C3 amended: `_load_tools` has no failure path at all — it succeeds on
every tool listing, and the resulting registry is empty exactly when the
listing was empty (`None` or `[]`); no `EmptyRegistry` rejection exists. -/
theorem c3_amended (server_tools : Option (List ToolDefinition)) :
    load_tools server_tools = [] ↔ server_tools.getD [] = [] := by
  constructor
  · intro h
    by_contra hne
    cases hts : server_tools.getD [] with
    | nil => exact hne hts
    | cons t rest =>
      have : load_tools server_tools ≠ [] := by
        unfold load_tools
        rw [hts, List.foldl_cons]
        exact foldl_dictInsert_ne_nil rest _ (dictInsert_ne_nil _ _ _)
      exact this h
  · intro h
    unfold load_tools
    rw [h]
    rfl

/-- Witness for C3's amended statement at the two concrete empty listings. -/
theorem c3_amended_witness :
    load_tools (some []) = [] ∧ load_tools none = [] :=
  ⟨(c3_amended (some [])).mpr rfl, (c3_amended none).mpr rfl⟩

/-- C3 counterexample: an empty tool listing does NOT fail session
initialization.  `load_tools` is a total function (the Python code raises
nothing on this path), and on the empty listing it returns successfully
with an empty registry — there is no `EmptyRegistry` error, and the
"registry non-empty after successful initialization" invariant is false. -/
theorem c3_counterexample : load_tools (some []) = [] := rfl

/-- One remote MCP invocation: tool name and the argument dict passed to
`session.call_tool`. -/
structure McpCall where
  tool : String
  args : List (String × String)
  deriving DecidableEq, Repr

/-- The mutable state of `OpenAIPgMcpClient` relevant to the session
lifecycle: whether `self.session` is set, and `self.conn_id`. -/
structure ClientState where
  session : Bool
  conn_id : Option String
  deriving DecidableEq, Repr

/-- The exceptions the client can raise, by the `ValueError` message raised
(`notInitialized`, `notConnected`, `connectionRejected`) or the failure of
a remote collaborator that propagates through uncaught code
(`serviceError`, `toolError`). -/
inductive PgError
  | notInitialized
  | notConnected
  | connectionRejected
  | serviceError (msg : String)
  | toolError (msg : String)
  deriving DecidableEq, Repr

/-- `OpenAIPgMcpClient.connect_to_database` (openai_pg_mcp_client.py, lines
131-143).  The remote `connect` result's `connection_id` field is the
oracle input `resultConnId` (`None` models an absent key).  Note the code
assigns `self.conn_id = result.get("connection_id")` before the falsiness
check, so a rejected connect still overwrites `conn_id`. -/
def OpenAIPgMcpClient.connect_to_database (s : ClientState)
    (connection_string : String) (resultConnId : Option String) :
    Except PgError String × ClientState × List McpCall :=
  if s.session = false then (.error .notInitialized, s, [])
  else
    let calls : List McpCall := [⟨"connect", [("connection_string", connection_string)]⟩]
    let s1 : ClientState := { s with conn_id := resultConnId }
    if truthy resultConnId then (.ok (orEmpty resultConnId), s1, calls)
    else (.error .connectionRejected, s1, calls)

/-- `OpenAIPgMcpClient.execute_query` (openai_pg_mcp_client.py, lines
145-154): guarded by `if not self.session or not self.conn_id`. -/
def OpenAIPgMcpClient.execute_query (s : ClientState) (query : String) :
    Except PgError Unit × List McpCall :=
  if s.session = false ∨ truthy s.conn_id = false then (.error .notConnected, [])
  else (.ok (), [⟨"pg_query", [("connection_id", orEmpty s.conn_id), ("query", query)]⟩])

/-- `OpenAIPgMcpClient.explain_query` (openai_pg_mcp_client.py, lines
156-165): same guard, delegating to the `pg_explain` capability. -/
def OpenAIPgMcpClient.explain_query (s : ClientState) (query : String) :
    Except PgError Unit × List McpCall :=
  if s.session = false ∨ truthy s.conn_id = false then (.error .notConnected, [])
  else (.ok (), [⟨"pg_explain", [("connection_id", orEmpty s.conn_id), ("query", query)]⟩])

/-- `OpenAIPgMcpClient.disconnect` (openai_pg_mcp_client.py, lines 167-172):
`if self.session and self.conn_id:` call the remote `disconnect` capability
and clear `conn_id`; otherwise do nothing. -/
def OpenAIPgMcpClient.disconnect (s : ClientState) : ClientState × List McpCall :=
  if s.session = true ∧ truthy s.conn_id = true then
    ({ s with conn_id := none }, [⟨"disconnect", [("connection_id", orEmpty s.conn_id)]⟩])
  else (s, [])

/-- C7: on an initialized client with a connection id present, the first
`disconnect` makes exactly one remote `disconnect` call and clears
`conn_id`; an immediately following second call makes no remote call,
raises nothing, and leaves the state unchanged. -/
theorem c7_disconnect_idempotent (s : ClientState)
    (hs : s.session = true) (hc : truthy s.conn_id = true) :
    (OpenAIPgMcpClient.disconnect s).2 =
      [⟨"disconnect", [("connection_id", orEmpty s.conn_id)]⟩] ∧
    (OpenAIPgMcpClient.disconnect s).1.conn_id = none ∧
    (OpenAIPgMcpClient.disconnect (OpenAIPgMcpClient.disconnect s).1).2 = [] ∧
    (OpenAIPgMcpClient.disconnect (OpenAIPgMcpClient.disconnect s).1).1 =
      (OpenAIPgMcpClient.disconnect s).1 := by
  have hnone : truthy none = false := rfl
  unfold OpenAIPgMcpClient.disconnect
  simp [hs, hc, hnone]

/-- Witness for C7 on a connected concrete state. -/
theorem c7_disconnect_idempotent_witness :
    (OpenAIPgMcpClient.disconnect ⟨true, some "conn-1"⟩).2 =
      [⟨"disconnect", [("connection_id", orEmpty (some "conn-1"))]⟩] ∧
    (OpenAIPgMcpClient.disconnect ⟨true, some "conn-1"⟩).1.conn_id = none ∧
    (OpenAIPgMcpClient.disconnect (OpenAIPgMcpClient.disconnect ⟨true, some "conn-1"⟩).1).2 = [] ∧
    (OpenAIPgMcpClient.disconnect (OpenAIPgMcpClient.disconnect ⟨true, some "conn-1"⟩).1).1 =
      (OpenAIPgMcpClient.disconnect ⟨true, some "conn-1"⟩).1 :=
  c7_disconnect_idempotent ⟨true, some "conn-1"⟩ rfl (by decide)

/-- C8: on an initialized client, `connect_to_database` makes exactly one
remote `connect` call; if the result carries no connection identifier the
call fails with the connection-rejected `ValueError`; and whenever the
call succeeds, the returned value is the identifier the remote result
carried, which is also stored into `conn_id`. -/
theorem c8_connect_database (s : ClientState) (cs : String)
    (r : Option String) (hs : s.session = true) :
    (OpenAIPgMcpClient.connect_to_database s cs r).2.2 =
      [⟨"connect", [("connection_string", cs)]⟩] ∧
    (r = none →
      (OpenAIPgMcpClient.connect_to_database s cs r).1 =
        .error .connectionRejected) ∧
    (∀ cid, (OpenAIPgMcpClient.connect_to_database s cs r).1 = .ok cid →
      r = some cid ∧
      (OpenAIPgMcpClient.connect_to_database s cs r).2.1.conn_id = some cid) := by
  unfold OpenAIPgMcpClient.connect_to_database
  cases r with
  | none => simp [hs, truthy]
  | some str =>
    by_cases hstr : str = ""
    · subst hstr
      simp [hs, truthy]
    · simp [hs, truthy, hstr, orEmpty]

/-- Witness for C8 on a concrete accepted connection. -/
theorem c8_connect_database_witness :
    (OpenAIPgMcpClient.connect_to_database ⟨true, none⟩ "postgresql://h/db"
        (some "conn-9")).2.2 =
      [⟨"connect", [("connection_string", "postgresql://h/db")]⟩] ∧
    ((some "conn-9" : Option String) = none →
      (OpenAIPgMcpClient.connect_to_database ⟨true, none⟩ "postgresql://h/db"
          (some "conn-9")).1 = .error .connectionRejected) ∧
    (∀ cid, (OpenAIPgMcpClient.connect_to_database ⟨true, none⟩ "postgresql://h/db"
          (some "conn-9")).1 = .ok cid →
      (some "conn-9" : Option String) = some cid ∧
      (OpenAIPgMcpClient.connect_to_database ⟨true, none⟩ "postgresql://h/db"
          (some "conn-9")).2.1.conn_id = some cid) :=
  c8_connect_database ⟨true, none⟩ "postgresql://h/db" (some "conn-9") rfl

/-- One tool invocation request from a completion response: `tool_call.id`,
`function.name`, and the JSON-decoded arguments dict. -/
structure ToolCall where
  id : String
  name : String
  args : List (String × String)
  deriving DecidableEq, Repr

/-- A completion-service response message: optional text content and the
requested tool calls (an absent `tool_calls` models as `[]`, equally
falsy). -/
structure CompletionResponse where
  content : Option String
  tool_calls : List ToolCall
  deriving DecidableEq, Repr

/-- One conversation turn as placed in a `messages` list. -/
inductive Turn
  | system (content : String)
  | user (content : String)
  | assistant (content : String) (tool_calls : List ToolCall)
  | tool (tool_call_id : String) (content : String)
  deriving DecidableEq, Repr

/-- Effects of one `OpenAIPgMcpClient.chat` exchange: the MCP tool calls
made through the transport, and the message lists sent to the completion
service, in order. -/
structure ChatEffects where
  mcpCalls : List McpCall
  completionCalls : List (List Turn)
  deriving DecidableEq, Repr

/-- Stand-in for the fixed system prompt of `OpenAIPgMcpClient`; its prose
is irrelevant to the orchestration, only its identity and position in the
turn list matter. -/
def opSystemPrompt : String := "pg-mcp assistant system prompt"

/-- Stand-in for the fixed system prompt of `SimpleOpenAIClient`. -/
def simpleSystemPrompt : String := "simple pg assistant system prompt"

/-- The initial turn sequence `[system, user]` built by both chat loops. -/
def initialTurns (sys um : String) : List Turn :=
  [Turn.system sys, Turn.user um]

/-- The follow-up message list built by `OpenAIPgMcpClient.chat` (lines
228-235): system, user, one assistant turn echoing ALL requested tool
calls, and the single tool-result turn of the one call just executed. -/
def opFollowupTurns (um : String) (m : CompletionResponse) (tc : ToolCall)
    (tres : String) : List Turn :=
  initialTurns opSystemPrompt um ++
    [Turn.assistant (orEmpty m.content) m.tool_calls, Turn.tool tc.id tres]

/-- `OpenAIPgMcpClient.chat` (openai_pg_mcp_client.py, lines 174-243).
`complete` is the completion-service oracle and `callTool` the transport
oracle (its `.ok` value is the serialized tool result placed in the tool
turn).  The body of the `for tool_call in message.tool_calls` loop ends in
an unconditional `return`, so only the head of the tool-call list is ever
executed.  No exception is caught: oracle failures become `.error`
results of `chat` itself. -/
def OpenAIPgMcpClient.chat (s : ClientState) (um : String)
    (complete : List Turn → Except String CompletionResponse)
    (callTool : String → List (String × String) → Except String String) :
    Except PgError (Option String) × ChatEffects :=
  if s.session = false then (.error .notInitialized, ⟨[], []⟩)
  else
    match complete (initialTurns opSystemPrompt um) with
    | .error e => (.error (.serviceError e), ⟨[], [initialTurns opSystemPrompt um]⟩)
    | .ok message =>
      match message.tool_calls with
      | [] => (.ok message.content, ⟨[], [initialTurns opSystemPrompt um]⟩)
      | tc :: _ =>
        match callTool tc.name tc.args with
        | .error e =>
            (.error (.toolError e),
             ⟨[⟨tc.name, tc.args⟩], [initialTurns opSystemPrompt um]⟩)
        | .ok tres =>
          match complete (opFollowupTurns um message tc tres) with
          | .error e =>
              (.error (.serviceError e),
               ⟨[⟨tc.name, tc.args⟩],
                [initialTurns opSystemPrompt um, opFollowupTurns um message tc tres]⟩)
          | .ok resp2 =>
              (.ok resp2.content,
               ⟨[⟨tc.name, tc.args⟩],
                [initialTurns opSystemPrompt um, opFollowupTurns um message tc tres]⟩)

/-- Whether the character list `needle` occurs at the front of `hay`. -/
def listStartsWith : List Char → List Char → Bool
  | [], _ => true
  | _ :: _, [] => false
  | a :: as, b :: bs => a == b && listStartsWith as bs

/-- Whether `needle` occurs as a contiguous sublist of `hay`. -/
def listContainsSub (needle : List Char) : List Char → Bool
  | [] => needle.isEmpty
  | b :: bs => listStartsWith needle (b :: bs) || listContainsSub needle bs

/-- Python `"SELECT" in query.upper()` (simplified_openai_client.py, line
146). -/
def containsSelect (query : String) : Bool :=
  listContainsSub "SELECT".toList query.toUpper.toList

/-- The mock tool results hard-coded in `simplified_openai_client.py`. -/
inductive MockResult
  | connected (connection_id : String)
  | disconnected
  | rows
  | statusOk
  | plan
  | unknownTool
  deriving DecidableEq, Repr

/-- `SimpleOpenAIClient.execute_query` (simplified_openai_client.py, lines
139-156): fixed rows for a query containing `SELECT` (upper-cased),
otherwise a success status dict. -/
def SimpleOpenAIClient.execute_query (query : String) : MockResult :=
  if containsSelect query then .rows else .statusOk

/-- `json.dumps` of each mock tool-result dict as placed in the tool
turn's `content`. -/
def mockDumps : MockResult → String
  | .connected cid => "\x7b\"connection_id\": \"" ++ cid ++ "\"\x7d"
  | .disconnected => "\x7b\"status\": \"disconnected\"\x7d"
  | .rows => "\x7b\"columns\": [\"id\", \"name\", \"value\"], \"rows\": [[1, \"Example 1\", 100], [2, \"Example 2\", 200], [3, \"Example 3\", 300]]\x7d"
  | .statusOk => "\x7b\"status\": \"success\", \"message\": \"Query executed successfully\"\x7d"
  | .plan => "\x7b\"plan\": \"Seq Scan on example_table (cost=0.00..1.00 rows=3 width=20)\"\x7d"
  | .unknownTool => "\x7b\"error\": \"Unknown tool\"\x7d"

/-- The mock tool dispatch inside `SimpleOpenAIClient.chat` (lines
193-206): returns the mock result and the new `conn_id`. -/
def dispatchTool (conn : Option String) (name : String)
    (args : List (String × String)) : MockResult × Option String :=
  if name = "connect" then (.connected "mock-connection-id", some "mock-connection-id")
  else if name = "disconnect" then (.disconnected, none)
  else if name = "pg_query" then
    (SimpleOpenAIClient.execute_query ((args.lookup "query").getD ""), conn)
  else if name = "pg_explain" then (.plan, conn)
  else (.unknownTool, conn)

/-- The `for tool_call in message.tool_calls` loop of
`SimpleOpenAIClient.chat` (lines 187-213): executes every requested tool
in order, threading `conn_id`, collecting one tool turn per call. -/
def processToolCalls (conn : Option String) :
    List ToolCall → Option String × List Turn
  | [] => (conn, [])
  | tc :: rest =>
    let r := dispatchTool conn tc.name tc.args
    let next := processToolCalls r.2 rest
    (next.1, Turn.tool tc.id (mockDumps r.1) :: next.2)

/-- The implicit connect at the top of `SimpleOpenAIClient.chat` (lines
162-165): when `conn_id` is falsy and `DATABASE_URL` holds a truthy value,
`connect_to_database` runs, setting the fixed mock id (lines 131-137). -/
def autoConnect (conn db_url : Option String) : Option String :=
  if truthy conn = false then
    if truthy db_url then some "mock-connection-id" else conn
  else conn

/-- The observable outcome of one `SimpleOpenAIClient.chat` exchange:
returned text (`none` models Python returning `None`), final `conn_id`,
and the message lists sent to the completion service. -/
structure SimpleChatResult where
  text : Option String
  conn_id : Option String
  completionCalls : List (List Turn)
  deriving DecidableEq, Repr

/-- The follow-up message list of `SimpleOpenAIClient.chat` (lines
216-221): system, user, the assistant turn, then every tool-result turn. -/
def simpleFollowupTurns (um : String) (m : CompletionResponse)
    (conn0 : Option String) : List Turn :=
  initialTurns simpleSystemPrompt um ++
    [Turn.assistant (orEmpty m.content) m.tool_calls] ++
    (processToolCalls conn0 m.tool_calls).2

/-- `SimpleOpenAIClient.chat` (simplified_openai_client.py, lines 158-240):
auto-connect, initial completion call, execution of EVERY requested tool,
one batched follow-up call; the whole body is wrapped in try/except
returning `"Error: ..."`, with an inner try around the follow-up call
returning `"Error processing tool results: ..."`. -/
def SimpleOpenAIClient.chat (conn db_url : Option String) (um : String)
    (complete : List Turn → Except String CompletionResponse) :
    SimpleChatResult :=
  let conn0 := autoConnect conn db_url
  match complete (initialTurns simpleSystemPrompt um) with
  | .error e => ⟨some ("Error: " ++ e), conn0, [initialTurns simpleSystemPrompt um]⟩
  | .ok message =>
    match message.tool_calls with
    | [] => ⟨message.content, conn0, [initialTurns simpleSystemPrompt um]⟩
    | _ :: _ =>
      let conn1 := (processToolCalls conn0 message.tool_calls).1
      match complete (simpleFollowupTurns um message conn0) with
      | .error e =>
          ⟨some ("Error processing tool results: " ++ e), conn1,
           [initialTurns simpleSystemPrompt um, simpleFollowupTurns um message conn0]⟩
      | .ok final =>
          ⟨final.content, conn1,
           [initialTurns simpleSystemPrompt um, simpleFollowupTurns um message conn0]⟩

/-- C9: with an uninitialized session, `chat` fails immediately with the
not-initialized `ValueError`, before any completion-service call or tool
invocation is made (the effect logs are empty), and `connect_to_database`
enforces the same guard before contacting the transport. -/
theorem c9_uninitialized_guard
    (s : ClientState) (um cs : String) (r : Option String)
    (complete : List Turn → Except String CompletionResponse)
    (callTool : String → List (String × String) → Except String String)
    (hs : s.session = false) :
    OpenAIPgMcpClient.chat s um complete callTool =
      (.error .notInitialized, ⟨[], []⟩) ∧
    OpenAIPgMcpClient.connect_to_database s cs r =
      (.error .notInitialized, s, []) := by
  unfold OpenAIPgMcpClient.chat OpenAIPgMcpClient.connect_to_database
  simp [hs]

/-- Witness for C9 at a concrete uninitialized state. -/
theorem c9_uninitialized_guard_witness :
    OpenAIPgMcpClient.chat ⟨false, none⟩ "hello" (fun _ => .ok ⟨some "hi", []⟩)
        (fun _ _ => .ok "r") = (.error .notInitialized, ⟨[], []⟩) ∧
    OpenAIPgMcpClient.connect_to_database ⟨false, none⟩ "db-url" (some "c") =
      (.error .notInitialized, ⟨false, none⟩, []) :=
  c9_uninitialized_guard ⟨false, none⟩ "hello" "db-url" (some "c")
    (fun _ => .ok ⟨some "hi", []⟩) (fun _ _ => .ok "r") rfl

/-- C2 counterexample: `OpenAIPgMcpClient.chat` has no try/except, so a
completion-service failure on the initial call propagates out of `chat` as
an exception (an `Except.error` of the model), not as a returned
user-facing error string. -/
theorem c2_counterexample :
    OpenAIPgMcpClient.chat ⟨true, none⟩ "hello"
        (fun _ => .error "rate limited") (fun _ _ => .ok "r") =
      (.error (.serviceError "rate limited"),
       ⟨[], [initialTurns opSystemPrompt "hello"]⟩) := rfl

/-- C2 amended: in `SimpleOpenAIClient.chat` every completion-service
failure is caught at the chat boundary and converted to a user-facing
error string (the initial call to `"Error: ..."`, the follow-up call to
`"Error processing tool results: ..."`); in `OpenAIPgMcpClient.chat` the
same failure propagates out of `chat` uncaught. -/
theorem c2_errors_at_chat_boundary
    (conn db_url : Option String) (um e : String)
    (complete : List Turn → Except String CompletionResponse)
    (callTool : String → List (String × String) → Except String String) :
    (complete (initialTurns simpleSystemPrompt um) = .error e →
      (SimpleOpenAIClient.chat conn db_url um complete).text =
        some ("Error: " ++ e)) ∧
    (∀ m, complete (initialTurns simpleSystemPrompt um) = .ok m →
      m.tool_calls ≠ [] →
      complete (simpleFollowupTurns um m (autoConnect conn db_url)) = .error e →
      (SimpleOpenAIClient.chat conn db_url um complete).text =
        some ("Error processing tool results: " ++ e)) ∧
    (∀ s : ClientState, s.session = true →
      complete (initialTurns opSystemPrompt um) = .error e →
      (OpenAIPgMcpClient.chat s um complete callTool).1 =
        .error (.serviceError e)) := by
  refine ⟨?_, ?_, ?_⟩
  · intro h
    simp [SimpleOpenAIClient.chat, h]
  · intro m hm hne hf
    cases htc : m.tool_calls with
    | nil => exact absurd htc hne
    | cons a l =>
      simp only [SimpleOpenAIClient.chat, hm, htc]
      rw [hf]
  · intro s hs h
    simp [OpenAIPgMcpClient.chat, hs, h]

/-- Completion oracle that always fails, for the C2 witness. -/
def failComplete : List Turn → Except String CompletionResponse :=
  fun _ => .error "boom"

/-- Completion oracle whose initial response requests one `pg_explain`
call and whose follow-up call fails, for the C2 witness. -/
def failSecondComplete : List Turn → Except String CompletionResponse :=
  fun ts =>
    if ts.length ≤ 2 then .ok ⟨none, [⟨"c1", "pg_explain", []⟩]⟩
    else .error "boom2"

/-- Witness for C2's amended statement at concrete failing oracles. -/
theorem c2_errors_at_chat_boundary_witness :
    (SimpleOpenAIClient.chat none none "hi" failComplete).text =
      some ("Error: " ++ "boom") ∧
    (SimpleOpenAIClient.chat none none "hi" failSecondComplete).text =
      some ("Error processing tool results: " ++ "boom2") ∧
    (OpenAIPgMcpClient.chat ⟨true, none⟩ "hi" failComplete
        (fun _ _ => .ok "r")).1 = .error (.serviceError "boom") :=
  ⟨(c2_errors_at_chat_boundary none none "hi" "boom" failComplete
      (fun _ _ => .ok "r")).1 rfl,
   (c2_errors_at_chat_boundary none none "hi" "boom2" failSecondComplete
      (fun _ _ => .ok "r")).2.1 ⟨none, [⟨"c1", "pg_explain", []⟩]⟩ rfl
      (by decide) rfl,
   (c2_errors_at_chat_boundary none none "hi" "boom" failComplete
      (fun _ _ => .ok "r")).2.2 ⟨true, none⟩ rfl rfl⟩

/-- A first completion response requesting two independent tool calls. -/
def twoToolResponse : CompletionResponse :=
  ⟨none, [⟨"call_a", "pg_query", [("connection_id", "c1"), ("query", "SELECT 1")]⟩,
          ⟨"call_b", "pg_query", [("connection_id", "c1"), ("query", "SELECT 2")]⟩]⟩

/-- Completion oracle for the multi-tool scenario: the initial two-turn
message list gets the two-tool-call response; any longer (follow-up)
message list gets a plain text answer with no further tool calls. -/
def twoToolComplete : List Turn → Except String CompletionResponse :=
  fun ts =>
    if ts.length ≤ 2 then .ok twoToolResponse
    else .ok ⟨some "final-answer", []⟩

/-- Transport oracle on which every tool call succeeds. -/
def okCallTool : String → List (String × String) → Except String String :=
  fun name _ => .ok ("result-of-" ++ name)

/-- C1, evaluated at the failing input: on a first completion response
carrying two tool-call requests, `OpenAIPgMcpClient.chat` executes only
the FIRST requested tool (`call_a`; `call_b` is never invoked — the loop
body returns unconditionally) and its single follow-up call carries only
that one result, while `SimpleOpenAIClient.chat` on the same response
executes both requested tools and appends both results to the turn
sequence before its single follow-up call, whose text it returns.  The
claimed property holds of the simplified client and fails on
`OpenAIPgMcpClient`. -/
theorem c1_multi_tool_evaluation :
    (OpenAIPgMcpClient.chat ⟨true, some "c1"⟩ "two queries" twoToolComplete
        okCallTool).2.mcpCalls =
      [⟨"pg_query", [("connection_id", "c1"), ("query", "SELECT 1")]⟩] ∧
    (OpenAIPgMcpClient.chat ⟨true, some "c1"⟩ "two queries" twoToolComplete
        okCallTool).1 = .ok (some "final-answer") ∧
    (OpenAIPgMcpClient.chat ⟨true, some "c1"⟩ "two queries" twoToolComplete
        okCallTool).2.completionCalls.length = 2 ∧
    SimpleOpenAIClient.chat (some "c1") none "two queries" twoToolComplete =
      ⟨some "final-answer", some "c1",
       [initialTurns simpleSystemPrompt "two queries",
        initialTurns simpleSystemPrompt "two queries" ++
          [Turn.assistant "" twoToolResponse.tool_calls,
           Turn.tool "call_a" (mockDumps (SimpleOpenAIClient.execute_query "SELECT 1")),
           Turn.tool "call_b" (mockDumps (SimpleOpenAIClient.execute_query "SELECT 2"))]]⟩ :=
  ⟨rfl, rfl, rfl, rfl⟩

/-- C4 counterexample: on a session with `conn_id = None`, the tool
execution path inside `chat` performs the transport call for the
non-`connect` tool `pg_query` and succeeds — no `NotConnected` failure and
a transport call is made, contradicting the claim for this execution
path. -/
theorem c4_counterexample :
    (OpenAIPgMcpClient.chat ⟨true, none⟩ "q" twoToolComplete okCallTool).2.mcpCalls =
      [⟨"pg_query", [("connection_id", "c1"), ("query", "SELECT 1")]⟩] ∧
    (OpenAIPgMcpClient.chat ⟨true, none⟩ "q" twoToolComplete okCallTool).1 =
      .ok (some "final-answer") :=
  ⟨rfl, rfl⟩

/-- C4 amended: the dedicated wrappers `execute_query` and `explain_query`
do fail with the not-connected `ValueError`, making no transport call,
when `conn_id` is falsy; but a tool requested through `chat`'s tool-call
loop is executed against the transport with no connection check at all,
whatever `conn_id` holds. -/
theorem c4_not_connected_guard
    (s : ClientState) (q um : String)
    (complete : List Turn → Except String CompletionResponse)
    (callTool : String → List (String × String) → Except String String)
    (m : CompletionResponse) (tc : ToolCall) (rest : List ToolCall)
    (tres : String)
    (hconn : truthy s.conn_id = false)
    (hs : s.session = true)
    (hm : complete (initialTurns opSystemPrompt um) = .ok m)
    (htc : m.tool_calls = tc :: rest)
    (hexec : callTool tc.name tc.args = .ok tres) :
    OpenAIPgMcpClient.execute_query s q = (.error .notConnected, []) ∧
    OpenAIPgMcpClient.explain_query s q = (.error .notConnected, []) ∧
    (OpenAIPgMcpClient.chat s um complete callTool).2.mcpCalls =
      [⟨tc.name, tc.args⟩] := by
  refine ⟨?_, ?_, ?_⟩
  · unfold OpenAIPgMcpClient.execute_query
    simp [hconn]
  · unfold OpenAIPgMcpClient.explain_query
    simp [hconn]
  · simp only [OpenAIPgMcpClient.chat, hs, hm, htc, hexec]
    cases h2 : complete (opFollowupTurns um m tc tres) <;> simp [h2]

/-- Witness for C4's amended statement on a concrete disconnected state. -/
theorem c4_not_connected_guard_witness :
    OpenAIPgMcpClient.execute_query ⟨true, none⟩ "SELECT 1" =
      (.error .notConnected, []) ∧
    OpenAIPgMcpClient.explain_query ⟨true, none⟩ "SELECT 1" =
      (.error .notConnected, []) ∧
    (OpenAIPgMcpClient.chat ⟨true, none⟩ "q" twoToolComplete okCallTool).2.mcpCalls =
      [⟨"pg_query", [("connection_id", "c1"), ("query", "SELECT 1")]⟩] :=
  c4_not_connected_guard ⟨true, none⟩ "SELECT 1" "q" twoToolComplete okCallTool
    twoToolResponse
    ⟨"call_a", "pg_query", [("connection_id", "c1"), ("query", "SELECT 1")]⟩
    [⟨"call_b", "pg_query", [("connection_id", "c1"), ("query", "SELECT 2")]⟩]
    "result-of-pg_query" rfl rfl rfl rfl rfl

/-- A first completion response requesting the `disconnect` tool. -/
def discToolResponse : CompletionResponse :=
  ⟨none, [⟨"call_d", "disconnect", [("connection_id", "mock-connection-id")]⟩]⟩

/-- Completion oracle for the disconnect scenario. -/
def discComplete : List Turn → Except String CompletionResponse :=
  fun ts =>
    if ts.length ≤ 2 then .ok discToolResponse
    else .ok ⟨some "done", []⟩

/-- C10 counterexample: starting from `conn_id = None` with `DATABASE_URL`
set non-empty, chat auto-connects, but the completion response requests
the `disconnect` tool, whose handler resets `conn_id` to `None` — the
follow-up call and the final state see `conn_id = None`, so `conn_id` is
not non-null for the rest of the exchange. -/
theorem c10_counterexample :
    (SimpleOpenAIClient.chat none (some "postgresql://localhost/db") "bye"
        discComplete).conn_id = none ∧
    (SimpleOpenAIClient.chat none (some "postgresql://localhost/db") "bye"
        discComplete).text = some "done" :=
  ⟨rfl, rfl⟩

lemma dispatchTool_conn_isSome (conn : Option String) (name : String)
    (args : List (String × String)) (hconn : conn.isSome = true)
    (hname : name ≠ "disconnect") :
    ((dispatchTool conn name args).2).isSome = true := by
  unfold dispatchTool
  split_ifs <;> simp_all

lemma processToolCalls_conn_isSome (tcs : List ToolCall)
    (conn : Option String) (hconn : conn.isSome = true)
    (hnd : ∀ tc ∈ tcs, tc.name ≠ "disconnect") :
    ((processToolCalls conn tcs).1).isSome = true := by
  induction tcs generalizing conn with
  | nil => simpa [processToolCalls] using hconn
  | cons tc rest ih =>
    simp only [processToolCalls]
    exact ih _ (dispatchTool_conn_isSome conn tc.name tc.args hconn
        (hnd tc (List.mem_cons_self _ _)))
      (fun x hx => hnd x (List.mem_cons_of_mem _ hx))

/-- C10 amended: when `conn_id` is falsy and `DATABASE_URL` holds a
non-empty value, `chat` implicitly connects before the first
completion-service call (the connection threaded into the exchange is the
fixed mock id), and `conn_id` remains non-null through the end of the
exchange provided the completion response requests no `disconnect` tool —
that tool resets `conn_id` to `None` mid-exchange. -/
theorem c10_auto_connect (conn db_url : Option String) (um : String)
    (complete : List Turn → Except String CompletionResponse)
    (hconn : truthy conn = false) (hdb : truthy db_url = true) :
    autoConnect conn db_url = some "mock-connection-id" ∧
    (∀ m, complete (initialTurns simpleSystemPrompt um) = .ok m →
      (∀ tc ∈ m.tool_calls, tc.name ≠ "disconnect") →
      ((SimpleOpenAIClient.chat conn db_url um complete).conn_id).isSome = true) := by
  have hauto : autoConnect conn db_url = some "mock-connection-id" := by
    unfold autoConnect
    simp [hconn, hdb]
  refine ⟨hauto, ?_⟩
  intro m hm hnd
  cases htc : m.tool_calls with
  | nil =>
    simp [SimpleOpenAIClient.chat, hm, htc, hauto]
  | cons a l =>
    simp only [SimpleOpenAIClient.chat, hm, htc]
    have hsome : ((processToolCalls (autoConnect conn db_url) (a :: l)).1).isSome = true := by
      apply processToolCalls_conn_isSome
      · rw [hauto]; rfl
      · rw [← htc]; exact hnd
    cases h2 : complete (simpleFollowupTurns um m (autoConnect conn db_url)) <;>
      simpa [h2] using hsome

/-- Witness for C10's amended statement: no `disconnect` among the
requested tools, so the exchange ends with a non-null `conn_id`. -/
theorem c10_auto_connect_witness :
    autoConnect none (some "postgresql://localhost/db") = some "mock-connection-id" ∧
    ((SimpleOpenAIClient.chat none (some "postgresql://localhost/db") "two queries"
        twoToolComplete).conn_id).isSome = true :=
  ⟨(c10_auto_connect none (some "postgresql://localhost/db") "two queries"
      twoToolComplete rfl (by decide)).1,
   (c10_auto_connect none (some "postgresql://localhost/db") "two queries"
      twoToolComplete rfl (by decide)).2 twoToolResponse rfl (by decide)⟩
